import Mathlib

/-!
Verification of the edge-normalization core of `src/app.py` (visualizador-enlaces).

The program reads a CSV into a pandas DataFrame and reshapes it into an edge
list via `process_data` (app.py lines 28-56), then feeds the edge list to a
networkx graph, a bar-chart ranking, and a table (lines 61-155).

Shallow embedding conventions:
* A pandas cell is `Option String`: `none` models NaN (pandas parses an empty
  CSV field as NaN; a whitespace-only field stays a string).
* A DataFrame is an ordered list of column names plus rows of cells.
* pandas library operations used by the source (`melt`, `str.extract`,
  `merge`, `dropna`, `str.strip`, `value_counts`, `nlargest`) are modelled by
  executable Lean functions, each documented with the pandas behaviour it
  reflects.
* Exceptions (pandas `KeyError`, Python `AttributeError`) are modelled with
  `Except String`.
-/

deriving instance DecidableEq for Except

/-- A pandas cell: `none` is NaN (missing), `some s` a string value. -/
abbrev Cell := Option String

/-- A pandas DataFrame: ordered column names and rows of cells. -/
structure DataFrame where
  cols : List String
  rows : List (List Cell)
deriving Repr, DecidableEq

/-- Value of column `c` in row `r` (pairing the row's cells with the column
names positionally); `none` when the column is absent, modelling NaN. -/
def cellAt (cols : List String) (r : List Cell) (c : String) : Cell :=
  (List.lookup c (cols.zip r)).join

/-- Whether the character list `pat` occurs as a contiguous run inside `l`. -/
def subOccurs (pat : List Char) : List Char → Bool
  | [] => pat.isEmpty
  | c :: cs => pat.isPrefixOf (c :: cs) || subOccurs pat cs

/-- Python's substring test `pat in s` on strings. -/
def containsSub (s pat : String) : Bool :=
  subOccurs pat.data s.data

/-- First contiguous run of decimal digits in a character list, if any:
the match of the regex `(\d+)`. -/
def firstDigitRun : List Char → Option (List Char)
  | [] => none
  | c :: cs => if c.isDigit then some (c :: cs.takeWhile Char.isDigit) else firstDigitRun cs

/-- Numeric value of a list of decimal digits. -/
def digitsToNat (ds : List Char) : Nat :=
  ds.foldl (fun n c => n * 10 + (c.toNat - 48)) 0

/-- app.py lines 41-42: `.str.extract('(\d+)').fillna(0).astype(int)` —
the first digit run of the column name as a number, defaulting to 0 when the
name has no digits. -/
def extractNum (s : String) : Nat :=
  match firstDigitRun s.data with
  | some ds => digitsToNat ds
  | none => 0

/-- Python `str.strip()`: remove leading and trailing whitespace. -/
def pyStrip (s : String) : String :=
  ⟨((s.data.dropWhile Char.isWhitespace).reverse.dropWhile Char.isWhitespace).reverse⟩

/-- One row of a melted frame: the carried `Dirección` id, the originating
column name (`var_name`), and the cell value (`value_name`). -/
structure MeltEntry where
  direccion : Cell
  colName : String
  value : Cell
deriving Repr, DecidableEq

/-- One melted row after `link_num` extraction (app.py lines 41-42). -/
structure KeyedEntry where
  direccion : Cell
  linkNum : Nat
  value : Cell
deriving Repr, DecidableEq

/-- One row of the merged frame after the column selection of app.py line 48. -/
structure JoinedRow where
  direccion : Cell
  urlDestino : Cell
  textoAncla : Cell
deriving Repr, DecidableEq

/-- A normalized edge record (app.py line 50 renames the columns to
`Source`, `Target`, `Anchor_Text`). -/
structure Edge where
  Source : Cell
  Target : Cell
  Anchor_Text : Cell
deriving Repr, DecidableEq

/-- app.py line 33: columns whose name contains `URL_Destino_Contenido`. -/
def url_cols (df : DataFrame) : List String :=
  df.cols.filter (fun c => containsSub c "URL_Destino_Contenido")

/-- app.py line 34: columns whose name contains `Texto_Ancla_Contenido`. -/
def texto_cols (df : DataFrame) : List String :=
  df.cols.filter (fun c => containsSub c "Texto_Ancla_Contenido")

/-- app.py lines 37-38: `df.melt(id_vars='Dirección', value_vars=vs, ...)`.
pandas melt stacks one block per value column, in the order the value columns
are given, each block listing the input rows in order and carrying the row's
`Dirección` cell along. -/
def meltGroup (df : DataFrame) (valueVars : List String) : List MeltEntry :=
  valueVars.flatMap (fun c =>
    df.rows.map (fun r => ⟨cellAt df.cols r "Dirección", c, cellAt df.cols r c⟩))

/-- app.py lines 41-42: add the `link_num` column extracted from the melted
column name. -/
def addLinkNum (es : List MeltEntry) : List KeyedEntry :=
  es.map (fun e => ⟨e.direccion, extractNum e.colName, e.value⟩)

/-- app.py line 45: `pd.merge(melted_urls, melted_textos,
on=['Dirección', 'link_num'])`, an inner join. pandas preserves the order of
the left keys; each left row is paired with every matching right row in right
order; NaN keys match NaN keys (modelled by `Option` equality). The result is
immediately restricted to the three columns kept by line 48. -/
def mergeInner (us ts : List KeyedEntry) : List JoinedRow :=
  us.flatMap (fun u =>
    (ts.filter (fun t => t.direccion == u.direccion && t.linkNum == u.linkNum)).map
      (fun t => ⟨u.direccion, u.value, t.value⟩))

/-- app.py lines 50-54: rename to Source/Target/Anchor_Text and strip
whitespace on Source and Target (`.str` leaves NaN as NaN; Anchor_Text is not
stripped). -/
def finalizeEdge (r : JoinedRow) : Edge :=
  ⟨r.direccion.map pyStrip, r.urlDestino.map pyStrip, r.textoAncla⟩

/-- app.py line 37/38 combined with 41/42 for one group of columns. -/
def meltedKeyed (df : DataFrame) (valueVars : List String) : List KeyedEntry :=
  addLinkNum (meltGroup df valueVars)

/-- The `melted_urls` frame with its `link_num` column (app.py lines 37, 41). -/
def melted_urls (df : DataFrame) : List KeyedEntry :=
  meltedKeyed df (url_cols df)

/-- The `melted_textos` frame with its `link_num` column (app.py lines 38, 42). -/
def melted_textos (df : DataFrame) : List KeyedEntry :=
  meltedKeyed df (texto_cols df)

/-- The merged frame `df_long` restricted to its three kept columns
(app.py lines 45, 48). -/
def df_long (df : DataFrame) : List JoinedRow :=
  mergeInner (melted_urls df) (melted_textos df)

/-- app.py lines 49-54: `dropna(subset=['URL_Destino'])` keeps exactly the
rows whose URL cell is not NaN (a whitespace-only string is not NaN), then
rename and strip. -/
def cleaned (df : DataFrame) : List Edge :=
  ((df_long df).filter (fun r => r.urlDestino.isSome)).map finalizeEdge

/-- app.py lines 28-56, `process_data` after `pd.read_csv`: the whole
normalizer. pandas `melt` raises `KeyError` when the `id_vars` column
`Dirección` is absent from the frame, which the caller catches at line 153;
otherwise the pipeline runs to completion. -/
def process_dataE (df : DataFrame) : Except String (List Edge) :=
  if "Dirección" ∈ df.cols then .ok (cleaned df) else .error "KeyError: Dirección"

example :
    process_dataE
      { cols := ["Dirección", "URL_Destino_Contenido_1", "Texto_Ancla_Contenido_1"],
        rows := [[some "A", some " B ", some "x"]] } =
      .ok [⟨some "A", some "B", some "x"⟩] := by decide

example :
    process_dataE
      { cols := ["Dirección", "URL_Destino_Contenido_1", "Texto_Ancla_Contenido_1"],
        rows := [[some "A", some "   ", some "x"]] } =
      .ok [⟨some "A", some "", some "x"⟩] := by decide

/-- A networkx graph as built by the app: `directed` records whether it was
created as a `DiGraph`; nodes and edges are kept in insertion order. -/
structure NxGraph where
  directed : Bool
  nodes : List Cell
  edges : List (Cell × Cell)
deriving Repr, DecidableEq

/-- networkx `add_node` behaviour: appends the node unless already present. -/
def addNode (ns : List Cell) (x : Cell) : List Cell :=
  if x ∈ ns then ns else ns ++ [x]

/-- Whether an undirected graph's edge list already holds the edge `{u, v}`. -/
def hasUndirEdge (es : List (Cell × Cell)) (u v : Cell) : Bool :=
  es.any (fun p => (p.1 == u && p.2 == v) || (p.1 == v && p.2 == u))

/-- One `add_edge` step of an undirected networkx `Graph`: registers both
endpoints as nodes and stores the edge once (parallel and reversed duplicates
collapse). -/
def addUndirEdge (g : NxGraph) (e : Edge) : NxGraph :=
  { g with
    nodes := addNode (addNode g.nodes e.Source) e.Target,
    edges :=
      if hasUndirEdge g.edges e.Source e.Target then g.edges
      else g.edges ++ [(e.Source, e.Target)] }

/-- app.py line 76: `nx.from_pandas_edgelist(df_links, 'Source', 'Target')`.
With no `create_using` argument networkx builds an UNDIRECTED `nx.Graph`,
adding each record's endpoints and edge in record order. -/
def from_pandas_edgelist (links : List Edge) : NxGraph :=
  links.foldl addUndirEdge { directed := false, nodes := [], edges := [] }

/-- The Python error message raised by app.py line 79. -/
def attrErrMsg : String :=
  "AttributeError: Graph object has no attribute in_degree"

/-- app.py line 79: `dict(G.in_degree)`. networkx defines `in_degree` only on
directed graphs; on an undirected `Graph` the attribute access raises
`AttributeError`. On a directed graph it would map every node to the number
of stored edges pointing at it. -/
def NxGraph.in_degreeE (g : NxGraph) : Except String (List (Cell × Nat)) :=
  if g.directed then
    .ok (g.nodes.map (fun v => (v, (g.edges.filter (fun p => p.2 == v)).length)))
  else
    .error attrErrMsg

/-- The user-visible events the Streamlit script can emit, in order
(app.py lines 61-155). -/
inductive Ev where
  | successMsg (nLinks : Nat)
  | headerNet
  | netView (g : NxGraph)
  | headerBar
  | barChart (ranking : List (String × Nat))
  | headerTable
  | tableView (links : List Edge)
  | errorMsg (msg : String)
  | warnFormat
deriving Repr, DecidableEq

/-- The `Target` column of the edge list as read by `value_counts`, which
skips NaN entries (its default `dropna=True`). -/
def targetsOf (links : List Edge) : List String :=
  links.filterMap (fun e => e.Target)

/-- Descending-count comparison used by `value_counts` and `nlargest`. -/
def countGE (a b : String × Nat) : Prop := b.2 ≤ a.2

instance : DecidableRel countGE := fun a b => Nat.decLe b.2 a.2

instance : IsTotal (String × Nat) countGE :=
  ⟨fun a b => (Nat.le_total b.2 a.2).elim Or.inl Or.inr⟩

instance : IsTrans (String × Nat) countGE :=
  ⟨fun _ _ _ h1 h2 => Nat.le_trans h2 h1⟩

/-- The distinct values of a list in order of first appearance (the key order
of a pandas hash table). -/
def firstOccurrences : List String → List String
  | [] => []
  | x :: xs => x :: (firstOccurrences xs).filter (fun y => !(y == x))

/-- Each distinct value paired with its raw occurrence count, in first
appearance order. -/
def countsTable (l : List String) : List (String × Nat) :=
  (firstOccurrences l).map (fun x => (x, l.count x))

/-- pandas `Series.value_counts()`: occurrence counts of the non-NaN values,
sorted by count in descending order with a stable sort, so equal counts keep
first-appearance order. -/
def value_counts (l : List String) : List (String × Nat) :=
  List.insertionSort countGE (countsTable l)

/-- pandas `Series.nlargest(n)` with its default `keep='first'`: the `n`
largest entries, selected by a stable descending ordering that prefers
earlier positions on ties. -/
def nlargest (n : Nat) (s : List (String × Nat)) : List (String × Nat) :=
  (List.insertionSort countGE s).take n

/-- app.py line 130: `df_links['Target'].value_counts().nlargest(20)`. -/
def link_counts (links : List Edge) : List (String × Nat) :=
  nlargest 20 (value_counts (targetsOf links))

/-- app.py lines 61-155: the whole handler for an uploaded file, as the
ordered list of user-visible events. The `try` block shows the success
message, then the three tabs in order; the first exception aborts to the
`except` handler (lines 153-155), which shows the error text and the warning
describing the expected column layout. Inside tab 1 the header and
description render before the graph code runs, so they precede the
`G.in_degree` failure. -/
def run_pipeline (df : DataFrame) : List Ev :=
  match process_dataE df with
  | .error e => [.errorMsg e, .warnFormat]
  | .ok links =>
    match (from_pandas_edgelist links).in_degreeE with
    | .error e => [.successMsg links.length, .headerNet, .errorMsg e, .warnFormat]
    | .ok _ =>
      [.successMsg links.length, .headerNet, .netView (from_pandas_edgelist links),
       .headerBar, .barChart (link_counts links), .headerTable, .tableView links]

example :
    run_pipeline
      { cols := ["Dirección", "URL_Destino_Contenido_1", "Texto_Ancla_Contenido_1"],
        rows := [[some "A", some "B", some "x"]] } =
      [.successMsg 1, .headerNet, .errorMsg attrErrMsg, .warnFormat] := by decide

example : link_counts [⟨some "s", some "b", none⟩, ⟨some "s", some "a", none⟩,
    ⟨some "t", some "a", none⟩] = [("a", 2), ("b", 1)] := by decide

/-! ### Spec-side description of the named-pattern normalizer (for claim C1)

These definitions restate §4.1 of the specification in its own terms: each
column group is reshaped wide-to-long with the numeric key taken from the
column name, and the two long tables are inner-joined, the join being the
key-equal subset of the Cartesian product of the two tables. -/

/-- Spec §4.1: reshape one group of marked columns from wide to long, one
output row per matched column × input row, carrying the row's source
identifier and the numeric suffix of the column name (default 0) as the join
key. -/
def specLong (df : DataFrame) (cs : List String) : List KeyedEntry :=
  cs.flatMap (fun c =>
    df.rows.map (fun r => ⟨cellAt df.cols r "Dirección", extractNum c, cellAt df.cols r c⟩))

/-- All pairs of one URL entry and one anchor-text entry. -/
def pairProduct (us ts : List KeyedEntry) : List (KeyedEntry × KeyedEntry) :=
  us.flatMap (fun u => ts.map (fun t => (u, t)))

/-- Spec §4.1: the inner join of the two long tables on
(source identifier, numeric key): the key-equal pairs of the Cartesian
product, each producing one joined row. An entry of either side with no
key-equal partner on the other side contributes nothing. -/
def specInnerJoin (us ts : List KeyedEntry) : List JoinedRow :=
  ((pairProduct us ts).filter
      (fun p => p.1.direccion == p.2.direccion && p.1.linkNum == p.2.linkNum)).map
    (fun p => ⟨p.1.direccion, p.1.value, p.2.value⟩)

/-- Spec §4.1, named-pattern variant end to end: reshape both groups, inner
join, drop rows with a missing target URL, and build the trimmed edge
records. -/
def spec_normalize (df : DataFrame) : List Edge :=
  ((specInnerJoin (specLong df (url_cols df)) (specLong df (texto_cols df))).filter
      (fun r => r.urlDestino.isSome)).map finalizeEdge

theorem meltedKeyed_eq_specLong (df : DataFrame) (cs : List String) :
    meltedKeyed df cs = specLong df cs := by
  simp only [meltedKeyed, addLinkNum, meltGroup, specLong, List.map_flatMap, List.map_map]
  rfl

theorem mergeInner_eq_specInnerJoin (us ts : List KeyedEntry) :
    mergeInner us ts = specInnerJoin us ts := by
  unfold mergeInner specInnerJoin pairProduct
  rw [List.filter_flatMap, List.map_flatMap]
  apply congrArg
  funext u
  rw [List.filter_map, List.map_map]
  have hf :
      ts.filter (fun t => t.direccion == u.direccion && t.linkNum == u.linkNum) =
        ts.filter
          ((fun p : KeyedEntry × KeyedEntry =>
              p.1.direccion == p.2.direccion && p.1.linkNum == p.2.linkNum) ∘
            (fun t => (u, t))) := by
    refine List.filter_congr ?_
    intro t _
    dsimp [Function.comp]
    rw [@Bool.beq_comm _ _ _ t.direccion u.direccion, @Bool.beq_comm _ _ _ t.linkNum u.linkNum]
  rw [hf]
  rfl

theorem firstDigitRun_eq_none {l : List Char} (h : ∀ c ∈ l, ¬ c.isDigit) :
    firstDigitRun l = none := by
  induction l with
  | nil => rfl
  | cons c cs ih =>
    have hc : ¬ c.isDigit := h c (List.mem_cons_self c cs)
    simp only [firstDigitRun, if_neg hc]
    exact ih fun d hd => h d (List.mem_cons_of_mem c hd)

/-- A string has no leading and no trailing whitespace character. -/
def trimmedEnds (s : String) : Prop :=
  (∀ c, s.data.head? = some c → ¬ c.isWhitespace) ∧
  (∀ c, s.data.getLast? = some c → ¬ c.isWhitespace)

theorem head?_dropWhile_not (p : α → Bool) (l : List α) :
    ∀ c, (l.dropWhile p).head? = some c → p c = false := by
  induction l with
  | nil => intro c hc; simp [List.dropWhile] at hc
  | cons a l ih =>
    intro c hc
    by_cases ha : p a
    · rw [List.dropWhile_cons_of_pos ha] at hc
      exact ih c hc
    · rw [List.dropWhile_cons_of_neg ha] at hc
      simp only [List.head?] at hc
      cases hc
      cases hpa : p a with
      | false => rfl
      | true => exact absurd hpa ha

theorem pyStrip_trimmedEnds (s : String) : trimmedEnds (pyStrip s) := by
  unfold pyStrip trimmedEnds
  constructor
  · intro c hc
    have hsuf :
        (s.data.dropWhile Char.isWhitespace).reverse.dropWhile Char.isWhitespace <:+
          (s.data.dropWhile Char.isWhitespace).reverse := List.dropWhile_suffix _
    have hpre := hsuf.reverse
    rw [List.reverse_reverse] at hpre
    obtain ⟨rest, hrest⟩ := hpre
    have hh :
        (s.data.dropWhile Char.isWhitespace).head? = some c := by
      rw [← hrest, List.head?_append, hc]
      rfl
    have := head?_dropWhile_not Char.isWhitespace s.data c hh
    simp [this]
  · intro c hc
    rw [List.getLast?_reverse] at hc
    have := head?_dropWhile_not Char.isWhitespace
      (s.data.dropWhile Char.isWhitespace).reverse c hc
    simp [this]

/-- Concrete frame in the named-pattern shape: one row, one column pair. -/
def dfBasic : DataFrame :=
  ⟨["Dirección", "URL_Destino_Contenido_1", "Texto_Ancla_Contenido_1"],
    [[some "A", some " B ", some "x"]]⟩

/-- C1: for every input table in the named-pattern shape (it has the
`Dirección` source column), the normalizer's edge list equals the spec-side
description: reshape the target-URL columns and the anchor-text columns each
from wide to long, key each long row by the numeric suffix extracted from its
column name, inner-join the two long tables on (source identifier, numeric
key) — so an entry of either side with no key-equal partner is dropped — and
drop every joined row whose target URL is missing. Moreover the extracted
key defaults to 0 when the column name has no digits. -/
theorem claim_C1 (df : DataFrame) (h : "Dirección" ∈ df.cols) :
    process_dataE df = .ok (spec_normalize df) ∧
    ∀ s : String, (∀ c ∈ s.data, ¬ c.isDigit) → extractNum s = 0 := by
  constructor
  · unfold process_dataE
    rw [if_pos h]
    unfold spec_normalize cleaned df_long melted_urls melted_textos
    rw [mergeInner_eq_specInnerJoin, meltedKeyed_eq_specLong, meltedKeyed_eq_specLong]
  · intro s hs
    unfold extractNum
    rw [firstDigitRun_eq_none hs]

/-- C1 witness: the refinement and the digitless default evaluated on
concrete inputs. -/
theorem claim_C1_witness :
    ("Dirección" ∈ dfBasic.cols) ∧
    process_dataE dfBasic = .ok (spec_normalize dfBasic) ∧
    extractNum "URL_Destino_Contenido" = 0 :=
  ⟨by decide, (claim_C1 dfBasic (by decide)).1,
    (claim_C1 dfBasic (by decide)).2 "URL_Destino_Contenido" (by decide)⟩

theorem ok_eq_cleaned {df : DataFrame} {links : List Edge}
    (h : process_dataE df = .ok links) : links = cleaned df := by
  unfold process_dataE at h
  by_cases hd : "Dirección" ∈ df.cols
  · rw [if_pos hd] at h
    injection h with h2
    exact h2.symm
  · rw [if_neg hd] at h
    simp at h

/-- Frame whose first row has a NaN source and whose second row has a
whitespace-only source and a whitespace-only target cell. -/
def dfWhitespace : DataFrame :=
  ⟨["Dirección", "URL_Destino_Contenido_1", "Texto_Ancla_Contenido_1"],
    [[none, some " x ", some "a"], [some " A ", some "   ", some "t"]]⟩

/-- C2 counterexample: the normalizer emits an edge whose `Source` is missing
(raw NaN survives `.str.strip()` as NaN) and an edge whose `Target` is the
empty string (a whitespace-only cell is not NaN, passes `dropna`, and strips
to `""`), refuting "every edge record has non-empty Source and Target
strings". -/
theorem claim_C2_cex :
    process_dataE dfWhitespace =
      .ok [⟨none, some "x", some "a"⟩, ⟨some "A", some "", some "t"⟩] ∧
    Edge.Source ⟨none, some "x", some "a"⟩ = none ∧
    Edge.Target ⟨some "A", some "", some "t"⟩ = some "" := by
  refine ⟨by decide, rfl, rfl⟩

/-- C2 amended: every emitted edge record has a present `Target`, and the
`Target` and (whenever present) the `Source` carry no leading or trailing
whitespace; however `Source` can be missing when the raw source cell is NaN,
and either string can be empty when the raw cell was whitespace-only. -/
theorem claim_C2_amended (df : DataFrame) (links : List Edge)
    (h : process_dataE df = .ok links) :
    ∀ e ∈ links,
      (∃ t, e.Target = some t ∧ trimmedEnds t) ∧
      (∀ s, e.Source = some s → trimmedEnds s) := by
  have hl := ok_eq_cleaned h
  subst hl
  intro e he
  unfold cleaned at he
  obtain ⟨r, hr, rfl⟩ := List.mem_map.mp he
  have hkeep := (List.mem_filter.mp hr).2
  obtain ⟨u, hu⟩ := Option.isSome_iff_exists.mp hkeep
  constructor
  · exact ⟨pyStrip u, by simp [finalizeEdge, hu], pyStrip_trimmedEnds u⟩
  · intro s hs
    cases hdir : r.direccion with
    | none => simp [finalizeEdge, hdir] at hs
    | some d =>
      simp [finalizeEdge, hdir] at hs
      rw [← hs]
      exact pyStrip_trimmedEnds d

/-- C2 witness: the amended invariant evaluated on a concrete edge. -/
theorem claim_C2_witness :
    (process_dataE dfBasic = .ok [⟨some "A", some "B", some "x"⟩]) ∧
    ((∃ t, Edge.Target ⟨some "A", some "B", some "x"⟩ = some t ∧ trimmedEnds t) ∧
      (∀ s, Edge.Source ⟨some "A", some "B", some "x"⟩ = some s → trimmedEnds s)) :=
  ⟨by decide,
    claim_C2_amended dfBasic [⟨some "A", some "B", some "x"⟩] (by decide)
      ⟨some "A", some "B", some "x"⟩ (by decide)⟩

/-- Frame with a single whitespace-only target cell. -/
def dfBlankTarget : DataFrame :=
  ⟨["Dirección", "URL_Destino_Contenido_1", "Texto_Ancla_Contenido_1"],
    [[some "P", some "   ", some "anchor"]]⟩

/-- C3 counterexample: a target cell holding only whitespace is NOT treated
as absent — the code drops only NaN targets (`dropna` runs before
`.str.strip()`), so the whitespace-only cell produces an edge record with an
empty `Target`, refuting "no edge is emitted for a whitespace-only cell". -/
theorem claim_C3_cex :
    process_dataE dfBlankTarget = .ok [⟨some "P", some "", some "anchor"⟩] ∧
    process_dataE dfBlankTarget ≠ .ok [] := by
  refine ⟨by decide, by decide⟩

/-- C3 amended: an edge record exists exactly for present (non-NaN) raw
target cells: every emitted edge has a present `Target`, and conversely every
URL entry with a present raw cell — even a blank one — joined to a key-equal
anchor-text entry yields its edge record in the output. -/
theorem claim_C3_amended (df : DataFrame) (links : List Edge)
    (h : process_dataE df = .ok links) :
    (∀ e ∈ links, e.Target.isSome) ∧
    (∀ u ∈ melted_urls df, ∀ t ∈ melted_textos df,
      t.direccion = u.direccion → t.linkNum = u.linkNum → u.value.isSome →
      finalizeEdge ⟨u.direccion, u.value, t.value⟩ ∈ links) := by
  have hl := ok_eq_cleaned h
  subst hl
  constructor
  · intro e he
    unfold cleaned at he
    obtain ⟨r, hr, rfl⟩ := List.mem_map.mp he
    have hkeep := (List.mem_filter.mp hr).2
    obtain ⟨u, hu⟩ := Option.isSome_iff_exists.mp hkeep
    simp [finalizeEdge, hu]
  · intro u hu t ht hdir hnum hsome
    unfold cleaned
    refine List.mem_map.mpr ⟨⟨u.direccion, u.value, t.value⟩, ?_, rfl⟩
    refine List.mem_filter.mpr ⟨?_, hsome⟩
    unfold df_long mergeInner
    refine List.mem_flatMap.mpr ⟨u, hu, ?_⟩
    refine List.mem_map.mpr ⟨t, ?_, rfl⟩
    refine List.mem_filter.mpr ⟨ht, ?_⟩
    simp [hdir, hnum]

/-- C3 witness: the conversely-kept blank cell on a concrete frame — the
whitespace-only target produces its (empty-Target) edge. -/
theorem claim_C3_witness :
    (⟨some "P", 1, some "   "⟩ ∈ melted_urls dfBlankTarget) ∧
    (⟨some "P", 1, some "anchor"⟩ ∈ melted_textos dfBlankTarget) ∧
    finalizeEdge ⟨some "P", some "   ", some "anchor"⟩ ∈
      [(⟨some "P", some "", some "anchor"⟩ : Edge)] :=
  ⟨by decide, by decide,
    (claim_C3_amended dfBlankTarget [⟨some "P", some "", some "anchor"⟩] (by decide)).2
      ⟨some "P", 1, some "   "⟩ (by decide) ⟨some "P", 1, some "anchor"⟩ (by decide)
      rfl rfl (by decide)⟩

/-- C4: the code means to build a directed graph and size nodes by in-degree
(the pyvis net is created with `directed=True` and the tooltip reports
"Enlaces entrantes"), but line 76 calls `nx.from_pandas_edgelist` without
`create_using=nx.DiGraph`, producing an UNDIRECTED `nx.Graph`; line 79's
`G.in_degree` then raises `AttributeError`, so on every successfully parsed
upload the network tab aborts into the error handler. This theorem evaluates
the modelled code at a well-formed one-edge input. -/
theorem claim_C4 :
    (from_pandas_edgelist [⟨some "A", some "B", some "x"⟩]).directed = false ∧
    (from_pandas_edgelist [⟨some "A", some "B", some "x"⟩]).in_degreeE =
      .error attrErrMsg ∧
    run_pipeline dfBasic =
      [.successMsg 1, .headerNet, .errorMsg attrErrMsg, .warnFormat] := by
  refine ⟨rfl, rfl, by decide⟩

/-- Frame in the named-pattern shape whose only target cell is NaN, so the
normalizer returns zero edge records. -/
def dfNoEdges : DataFrame :=
  ⟨["Dirección", "URL_Destino_Contenido_1", "Texto_Ancla_Contenido_1"],
    [[some "A", none, some "x"]]⟩

/-- C5 counterexample: with zero edge records the pipeline shows the SUCCESS
message ("0 links found"), not a warning distinct from a hard error, and it
does attempt the network visualization (the tab-1 header renders before the
graph code fails), refuting "a warning is surfaced and no visualization is
attempted". -/
theorem claim_C5_cex :
    process_dataE dfNoEdges = .ok [] ∧
    run_pipeline dfNoEdges =
      [.successMsg 0, .headerNet, .errorMsg attrErrMsg, .warnFormat] ∧
    Ev.successMsg 0 ∈ run_pipeline dfNoEdges ∧
    Ev.headerNet ∈ run_pipeline dfNoEdges := by
  refine ⟨by decide, by decide, by decide, by decide⟩

/-- C5 amended: whenever the normalizer returns zero edge records the
pipeline reports success with 0 links and enters the network tab; the
in-degree computation then fails (the graph is undirected), so the run ends
with the generic error message and the format hint; no empty-specific
warning exists, and the bar chart and table are never rendered. -/
theorem claim_C5_amended (df : DataFrame) (h : process_dataE df = .ok []) :
    run_pipeline df = [.successMsg 0, .headerNet, .errorMsg attrErrMsg, .warnFormat] := by
  unfold run_pipeline
  rw [h]
  rfl

/-- C5 witness: the amended behaviour on a concrete zero-edge frame. -/
theorem claim_C5_witness :
    (process_dataE dfNoEdges = .ok []) ∧
    run_pipeline dfNoEdges =
      [.successMsg 0, .headerNet, .errorMsg attrErrMsg, .warnFormat] :=
  ⟨by decide, claim_C5_amended dfNoEdges (by decide)⟩

/-- Frame with a source column but no target-URL columns at all. -/
def dfNoUrlCols : DataFrame :=
  ⟨["Dirección", "Foo"], [[some "A", some "B"]]⟩

/-- Frame lacking the `Dirección` source column. -/
def dfNoDir : DataFrame :=
  ⟨["Foo"], [[some "A"]]⟩

/-- C6 counterexample: on an input with a source column but NO valid target
columns the normalizer does NOT fail — it completes and returns an empty
edge list (melting an empty column list succeeds), refuting "the normalizer
fails with a FormatError when no valid target columns are found". -/
theorem claim_C6_cex :
    process_dataE dfNoUrlCols = .ok [] ∧
    ∀ e : String, process_dataE dfNoUrlCols ≠ .error e :=
  ⟨by decide, fun e h => by
    rw [(by decide : process_dataE dfNoUrlCols = .ok [])] at h
    exact Except.noConfusion h⟩

/-- C6 amended: if the input lacks the `Dirección` source column the
normalizer raises (pandas `KeyError` from `melt`) and the caller surfaces the
error plus the message describing the expected column layout; but when the
source column exists and no target-URL columns are found, the normalizer
completes with an empty edge list instead of failing. -/
theorem claim_C6_amended (df : DataFrame) :
    ("Dirección" ∉ df.cols →
      process_dataE df = .error "KeyError: Dirección" ∧
      run_pipeline df = [.errorMsg "KeyError: Dirección", .warnFormat]) ∧
    ("Dirección" ∈ df.cols → url_cols df = [] → process_dataE df = .ok []) := by
  constructor
  · intro hd
    have h1 : process_dataE df = .error "KeyError: Dirección" := by
      unfold process_dataE
      rw [if_neg hd]
    have h2 : run_pipeline df = [.errorMsg "KeyError: Dirección", .warnFormat] := by
      unfold run_pipeline
      rw [h1]
    exact ⟨h1, h2⟩
  · intro hd hurl
    unfold process_dataE
    rw [if_pos hd]
    suffices hc : cleaned df = [] by rw [hc]
    unfold cleaned df_long melted_urls meltedKeyed
    rw [hurl]
    rfl

/-- C6 witness: both halves of the amended claim on concrete frames. -/
theorem claim_C6_witness :
    ("Dirección" ∉ dfNoDir.cols) ∧
    run_pipeline dfNoDir = [.errorMsg "KeyError: Dirección", .warnFormat] ∧
    ("Dirección" ∈ dfNoUrlCols.cols) ∧
    url_cols dfNoUrlCols = [] ∧
    process_dataE dfNoUrlCols = .ok [] :=
  ⟨by decide, ((claim_C6_amended dfNoDir).1 (by decide)).2, by decide, by decide,
    (claim_C6_amended dfNoUrlCols).2 (by decide) (by decide)⟩

theorem filter_orderedInsert (n : Nat) (p : String × Nat) (l : List (String × Nat)) :
    (List.orderedInsert countGE p l).filter (fun q => q.2 == n) =
      if p.2 == n then p :: l.filter (fun q => q.2 == n)
      else l.filter (fun q => q.2 == n) := by
  induction l with
  | nil =>
    simp only [List.orderedInsert_nil, List.filter_cons, List.filter_nil]
  | cons q l ih =>
    by_cases hq : countGE p q
    · simp only [List.orderedInsert, if_pos hq, List.filter_cons]
    · simp only [List.orderedInsert, if_neg hq, List.filter_cons, ih]
      by_cases hpn : (p.2 == n) = true
      · have hp2 : p.2 = n := by simpa using hpn
        have hlt : p.2 < q.2 := Nat.lt_of_not_le hq
        have hqn : (q.2 == n) = false := by
          refine beq_eq_false_iff_ne.mpr ?_
          omega
        simp [hpn, hqn]
      · have hpn' : (p.2 == n) = false := Bool.eq_false_iff.mpr hpn
        simp [hpn']

/-- Stability of the modelled descending sort: the entries carrying any fixed
count appear in the same order before and after sorting. -/
theorem filter_insertionSort (n : Nat) (l : List (String × Nat)) :
    (List.insertionSort countGE l).filter (fun q => q.2 == n) =
      l.filter (fun q => q.2 == n) := by
  induction l with
  | nil => rfl
  | cons p l ih =>
    simp only [List.insertionSort, filter_orderedInsert, ih, List.filter_cons]

/-- C7: the bar-chart ranking equals the first 20 entries of the full
descending count table: each entry carries the RAW occurrence count of its
target (no deduplication by Source), the result is sorted descending by
count, ties keep first-encounter order (the sort is stable over the
first-appearance count table), and everything beyond rank 20 is cut
regardless of ties. -/
theorem claim_C7 (links : List Edge) :
    link_counts links = (value_counts (targetsOf links)).take 20 ∧
    (∀ p ∈ link_counts links, p.2 = (targetsOf links).count p.1) ∧
    (link_counts links).Sorted countGE ∧
    (∀ n, (value_counts (targetsOf links)).filter (fun q => q.2 == n) =
      (countsTable (targetsOf links)).filter (fun q => q.2 == n)) := by
  have hsorted : (value_counts (targetsOf links)).Sorted countGE :=
    List.sorted_insertionSort countGE _
  have heq : link_counts links = (value_counts (targetsOf links)).take 20 := by
    unfold link_counts nlargest
    rw [List.Sorted.insertionSort_eq hsorted]
  refine ⟨heq, ?_, ?_, ?_⟩
  · intro p hp
    rw [heq] at hp
    have hp2 : p ∈ value_counts (targetsOf links) := List.take_subset _ _ hp
    have hp3 : p ∈ countsTable (targetsOf links) :=
      (List.perm_insertionSort countGE _).mem_iff.mp hp2
    obtain ⟨x, _, hxp⟩ := List.mem_map.mp hp3
    cases hxp
    rfl
  · rw [heq]
    exact List.Pairwise.sublist (List.take_sublist 20 _) hsorted
  · intro n
    exact filter_insertionSort n _

/-- Edge list for the ranking witness: target "a" receives two raw links. -/
def edgesW : List Edge :=
  [⟨some "s", some "b", none⟩, ⟨some "s", some "a", none⟩, ⟨some "t", some "a", none⟩]

/-- C7 witness: the raw-count property evaluated on a concrete ranking. -/
theorem claim_C7_witness :
    (("a", 2) ∈ link_counts edgesW) ∧
    (("a", 2) : String × Nat).2 = (targetsOf edgesW).count ("a", 2).1 :=
  ⟨by decide, (claim_C7 edgesW).2.1 ("a", 2) (by decide)⟩

/-- Two rows by two column pairs, all cells present: enough to distinguish
row-major from column-major output order. -/
def dfTwoByTwo : DataFrame :=
  ⟨["Dirección", "URL_Destino_Contenido_1", "Texto_Ancla_Contenido_1",
      "URL_Destino_Contenido_2", "Texto_Ancla_Contenido_2"],
    [[some "A", some "u1", some "t1", some "u2", some "t2"],
      [some "B", some "v1", some "s1", some "v2", some "s2"]]⟩

/-- C8 counterexample: the output is NOT in input-row-major order. pandas
`melt` stacks one block per value column and the inner merge preserves the
left (URL) frame's order, so the records come grouped by target column first:
suffix 1 of both rows precedes suffix 2 of both rows, refuting "output
follows input row order with suffixes increasing within a row". -/
theorem claim_C8_cex :
    process_dataE dfTwoByTwo = .ok
      [⟨some "A", some "u1", some "t1"⟩, ⟨some "B", some "v1", some "s1"⟩,
        ⟨some "A", some "u2", some "t2"⟩, ⟨some "B", some "v2", some "s2"⟩] ∧
    process_dataE dfTwoByTwo ≠ .ok
      [⟨some "A", some "u1", some "t1"⟩, ⟨some "A", some "u2", some "t2"⟩,
        ⟨some "B", some "v1", some "s1"⟩, ⟨some "B", some "v2", some "s2"⟩] := by
  refine ⟨by decide, by decide⟩

/-- The anchor-text entries whose join key matches `(d, n)`, in melted
(column-major) order. -/
def matchingAnchors (df : DataFrame) (d : Cell) (n : Nat) : List KeyedEntry :=
  (melted_textos df).filter (fun t => t.direccion == d && t.linkNum == n)

/-- The edge records produced by one (URL column, input row) cell: none when
the cell is NaN, otherwise one record per key-matching anchor entry. -/
def perCell (df : DataFrame) (c : String) (r : List Cell) : List Edge :=
  match cellAt df.cols r c with
  | none => []
  | some v =>
    (matchingAnchors df (cellAt df.cols r "Dirección") (extractNum c)).map
      (fun t => ⟨(cellAt df.cols r "Dirección").map pyStrip, some (pyStrip v), t.value⟩)

theorem perCell_eq (df : DataFrame) (c : String) (r : List Cell) :
    ((((melted_textos df).filter (fun t =>
          t.direccion == cellAt df.cols r "Dirección" && t.linkNum == extractNum c)).map
        (fun t => (⟨cellAt df.cols r "Dirección", cellAt df.cols r c, t.value⟩ : JoinedRow))).filter
      (fun j => j.urlDestino.isSome)).map finalizeEdge = perCell df c r := by
  cases hu : cellAt df.cols r c with
  | none =>
    simp [perCell, hu, List.filter_map, Function.comp]
  | some v =>
    simp [perCell, hu, matchingAnchors, List.filter_map, Function.comp_def,
      List.map_map, finalizeEdge]

/-- C8 amended: the output order is stable but COLUMN-major: records are
grouped by target-URL column (in input column order, i.e. increasing
suffix for suffix-ordered headers), and within each column they follow input
row order; each cell's records list its key-matching anchor entries in
melted order. -/
theorem claim_C8_amended (df : DataFrame) (h : "Dirección" ∈ df.cols) :
    process_dataE df = .ok
      ((url_cols df).flatMap (fun c => df.rows.flatMap (fun r => perCell df c r))) := by
  unfold process_dataE
  rw [if_pos h]
  congr 1
  unfold cleaned df_long melted_urls
  rw [meltedKeyed_eq_specLong]
  unfold specLong mergeInner
  rw [List.flatMap_assoc, List.filter_flatMap, List.map_flatMap]
  apply congrArg
  funext c
  rw [List.flatMap_map, List.filter_flatMap, List.map_flatMap]
  apply congrArg
  funext r
  exact perCell_eq df c r

/-- C8 witness: the amended column-major order on the concrete 2×2 frame. -/
theorem claim_C8_witness :
    ("Dirección" ∈ dfTwoByTwo.cols) ∧
    process_dataE dfTwoByTwo = .ok
      ((url_cols dfTwoByTwo).flatMap
        (fun c => dfTwoByTwo.rows.flatMap (fun r => perCell dfTwoByTwo c r))) :=
  ⟨by decide, claim_C8_amended dfTwoByTwo (by decide)⟩

/-- Ambient interpreter state visible to the script: a model of the files the
process can write (the network tab writes `network_graph.html`; the
normalizer writes nothing). -/
structure PyState where
  fs : List (String × String)
deriving Repr, DecidableEq

/-- `process_data` with the ambient state threaded explicitly: the body
(app.py lines 28-56) only computes on its argument — it assigns no
module-level variable and writes no file — so the state passes through
untouched and the result does not read it. -/
def process_dataS (st : PyState) (df : DataFrame) :
    PyState × Except String (List Edge) :=
  (st, process_dataE df)

/-- C9: the normalizer is a deterministic function of its input table and
mutates no global state: it leaves the ambient state unchanged, a second run
on the same input returns the same result, and the result is independent of
the ambient state. -/
theorem claim_C9 (st : PyState) (df : DataFrame) :
    (process_dataS st df).1 = st ∧
    (process_dataS ((process_dataS st df).1) df).2 = (process_dataS st df).2 ∧
    (∀ st2 : PyState, (process_dataS st2 df).2 = (process_dataS st df).2) :=
  ⟨rfl, rfl, fun _ => rfl⟩

/-- C10 (implicit): the inner join is the full Cartesian product of the
key-matching entries: a joined row exists exactly for each pair of a URL
entry and an anchor entry with equal (source, numeric key) — so when keys
repeat (same source value in two rows, or two columns extracting the same
number), a URL from one row/column is paired with the anchor text of
another; and when every pair matches, the join has size |urls| × |anchors|. -/
theorem claim_C10 :
    (∀ (us ts : List KeyedEntry) (r : JoinedRow),
      r ∈ mergeInner us ts ↔
        ∃ u, u ∈ us ∧ ∃ t, t ∈ ts ∧ t.direccion = u.direccion ∧ t.linkNum = u.linkNum ∧
          r = ⟨u.direccion, u.value, t.value⟩) ∧
    (∀ (us ts : List KeyedEntry),
      (∀ u ∈ us, ∀ t ∈ ts, t.direccion = u.direccion ∧ t.linkNum = u.linkNum) →
      (mergeInner us ts).length = us.length * ts.length) := by
  constructor
  · intro us ts r
    unfold mergeInner
    simp only [List.mem_flatMap, List.mem_map, List.mem_filter, Bool.and_eq_true, beq_iff_eq]
    constructor
    · rintro ⟨u, hu, t, ⟨ht, hd, hn⟩, rfl⟩
      exact ⟨u, hu, t, ht, hd, hn, rfl⟩
    · rintro ⟨u, hu, t, ht, hd, hn, rfl⟩
      exact ⟨u, hu, t, ⟨ht, hd, hn⟩, rfl⟩
  · intro us ts
    induction us with
    | nil => intro _; simp [mergeInner]
    | cons u us ih =>
      intro hall
      have hsplit : mergeInner (u :: us) ts =
          ((ts.filter (fun t => t.direccion == u.direccion && t.linkNum == u.linkNum)).map
            (fun t => (⟨u.direccion, u.value, t.value⟩ : JoinedRow))) ++ mergeInner us ts := rfl
      have hfull : ts.filter (fun t =>
          t.direccion == u.direccion && t.linkNum == u.linkNum) = ts := by
        refine List.filter_eq_self.mpr ?_
        intro t ht
        obtain ⟨hd, hn⟩ := hall u (List.mem_cons_self u us) t ht
        simp [hd, hn]
      rw [hsplit, List.length_append, List.length_map, hfull,
        ih (fun u2 hu2 t ht => hall u2 (List.mem_cons_of_mem u hu2) t ht),
        List.length_cons, Nat.succ_mul]
      exact Nat.add_comm ts.length (us.length * ts.length)

/-- C10 witness: two rows sharing source "A" with the same suffix produce
the 2×2 product, including the mispaired record (url of row 1, anchor of
row 2). -/
theorem claim_C10_witness :
    ((⟨some "A", some "u1", some "t2"⟩ : JoinedRow) ∈
      mergeInner [⟨some "A", 1, some "u1"⟩, ⟨some "A", 1, some "u2"⟩]
        [⟨some "A", 1, some "t1"⟩, ⟨some "A", 1, some "t2"⟩]) ∧
    (mergeInner [⟨some "A", 1, some "u1"⟩, ⟨some "A", 1, some "u2"⟩]
        [⟨some "A", 1, some "t1"⟩, ⟨some "A", 1, some "t2"⟩]).length = 2 * 2 :=
  ⟨(claim_C10.1 _ _ _).mpr
      ⟨⟨some "A", 1, some "u1"⟩, by decide, ⟨some "A", 1, some "t2"⟩, by decide, rfl, rfl, rfl⟩,
    claim_C10.2 _ _ (by decide)⟩
